import Mathlib

/-!
Formal model of the CEF host bridge control plane
(`src/tools/cef_host_bridge/src/main.cpp`).

The bridge exposes a small HTTP API (`/status`, `/open`, `/eval`, `/input`,
`/frame`, `/quit`) over a mutex-guarded `SharedState`.  This file gives a
shallow embedding of the pieces the verified claims are about:

* `UrlDecode` — the percent/plus decoder used on query strings and
  URL-encoded bodies, including a faithful model of the `strtol(·, ·, 16)`
  acceptance test it performs on the two bytes after a `%`;
* `SharedState`, `HttpRequest` and the per-request dispatch
  (`ServeHttpRequest`), covering every route of `ServeHttp`'s loop body;
* the state-mutating operations of the whole program (`Op` / `ApplyOp`):
  request dispatch, the control-thread task bodies (`OpenUrlTask`,
  `EvalTask`, `NativeInputTask`, `QuitTask`), the `OnPaint` /
  `OnTitleChange` / `OnBeforeClose` callbacks, listener-setup failures and
  the final shutdown in `main`; `Reachable` closes the initial state of
  `main` under these operations.

C++ `std::string` values are modeled as Lean `String`s (bytes read as
characters); the raw BGRA pixel buffer is a `List Nat` of byte values; the
`uint64_t` counters are `Nat` with an explicit `% 2 ^ 64` at each increment;
`std::map` query/form tables are association lists with unique keys.
-/

namespace CefHostBridge

/-- Modulus of the `uint64_t` request counters and frame sequence number. -/
def U64 : Nat := 2 ^ 64

/-! ### UrlDecode (main.cpp lines 157-178) -/

/-- Byte is an ASCII hexadecimal digit (`0-9`, `A-F`, `a-f`). -/
def IsHexDigitByte (b : Nat) : Bool :=
  (48 ≤ b && b ≤ 57) || (65 ≤ b && b ≤ 70) || (97 ≤ b && b ≤ 102)

/-- Numeric value of an ASCII hexadecimal digit byte. -/
def HexDigitVal (b : Nat) : Nat :=
  if b ≤ 57 then b - 48 else if b ≤ 70 then b - 55 else b - 87

/-- Byte the C `isspace` classifies as whitespace in the C locale
(space, tab, newline, vertical tab, form feed, carriage return);
`strtol` skips these before the number. -/
def IsStrtolSpaceByte (b : Nat) : Bool := b = 32 || (9 ≤ b && b ≤ 13)

/-- Model of `strtol(text.substr(i+1,2).c_str(), &end, 16)` combined with the
`*end == '\0'` full-consumption test in `UrlDecode` (main.cpp 165-173),
applied to the two bytes after a `%`.  `some v` means `strtol` returned `v`
with `end` at the terminator of the C string, so the decoder emits
`(char)(v & 0xFF)`; `none` means the check failed and the `%` passes through.
Note `.c_str()` truncates at an embedded NUL byte (value `0`), and `strtol`
accepts an optional leading whitespace byte or sign before the digits — so
besides plain hex pairs it accepts pairs such as `+5`, `-5`, ` 5`, and a
leading NUL makes the C string empty with `end` already at the terminator. -/
def StrtolHexPair (c1 c2 : Nat) : Option Int :=
  if c1 = 0 then some 0
  else if IsHexDigitByte c1 && IsHexDigitByte c2 then
    some (16 * HexDigitVal c1 + HexDigitVal c2)
  else if IsHexDigitByte c1 && c2 = 0 then some (HexDigitVal c1)
  else if (c1 = 43 || IsStrtolSpaceByte c1) && IsHexDigitByte c2 then
    some (HexDigitVal c2)
  else if c1 = 45 && IsHexDigitByte c2 then some (-(HexDigitVal c2 : Int))
  else none

/-- Model of `UrlDecode` (main.cpp 157-178) over byte strings.  A `+` (43)
becomes a space (32); a `%` (37) followed by at least two bytes is decoded
through `StrtolHexPair`, consuming the two bytes on success and passing the
`%` through alone on failure (the two bytes are then reprocessed); anything
else is copied.  The C++ guard `i + 2 < text.size()` is exactly
"at least two bytes follow the `%`". -/
def UrlDecode : List Nat → List Nat
  | [] => []
  | 43 :: rest => 32 :: UrlDecode rest
  | 37 :: c1 :: c2 :: rest2 =>
    (match StrtolHexPair c1 c2 with
     | some v => (v % 256).toNat :: UrlDecode rest2
     | none => 37 :: UrlDecode (c1 :: c2 :: rest2))
  | c :: rest => c :: UrlDecode rest

/-! ### Small string helpers (main.cpp 97-155, 588-601) -/

/-- Character-level `std::tolower` in the C locale (main.cpp 97-102). -/
def ToLowerAsciiChar (c : Char) : Char :=
  if 65 ≤ c.toNat && c.toNat ≤ 90 then Char.ofNat (c.toNat + 32) else c

/-- Model of `ToLowerAscii` (main.cpp 97-102). -/
def ToLowerAscii (s : String) : String := String.mk (s.data.map ToLowerAsciiChar)

/-- Per-character escaping of `JsonEscape` (main.cpp 104-130). -/
def JsonEscapeChar (c : Char) : String :=
  if c = '\\' then "\\\\"
  else if c = '"' then "\\\""
  else if c = '\n' then "\\n"
  else if c = '\r' then "\\r"
  else if c = '\t' then "\\t"
  else String.singleton c

/-- Model of `JsonEscape` (main.cpp 104-130). -/
def JsonEscape (s : String) : String := String.join (s.data.map JsonEscapeChar)

/-- Per-character escaping of `JsSingleQuoteEscape` (main.cpp 132-155);
byte 39 is the single quote. -/
def JsSingleQuoteEscapeChar (c : Char) : String :=
  if c = '\\' then "\\\\"
  else if c = Char.ofNat 39 then "\\\x27"
  else if c = '\n' then "\\n"
  else if c = '\r' then "\\r"
  else String.singleton c

/-- Model of `JsSingleQuoteEscape` (main.cpp 132-155). -/
def JsSingleQuoteEscape (s : String) : String :=
  String.join (s.data.map JsSingleQuoteEscapeChar)

/-- ASCII decimal digit test used by the `ParseIntDefault` model. -/
def IsDigitChar (c : Char) : Bool := 48 ≤ c.toNat && c.toNat ≤ 57

/-- Whitespace test (C locale `isspace`) used by the `ParseIntDefault` model. -/
def IsSpaceChar (c : Char) : Bool := c.toNat = 32 || (9 ≤ c.toNat && c.toNat ≤ 13)

/-- Model of `ParseIntDefault` (main.cpp 588-601): empty text yields the
fallback; otherwise `strtol(text.c_str(), &end, 10)` must consume the whole
C string (which `.c_str()` truncates at an embedded NUL) — optional leading
whitespace, an optional sign, then at least one decimal digit and nothing
else — and the value must lie in `[-2^31, 2^31 - 1]`, else the fallback. -/
def ParseIntDefault (text : String) (fallback : Int) : Int :=
  if text = "" then fallback
  else
    let cs := text.data.takeWhile (fun c => c.toNat ≠ 0)
    let cs1 := cs.dropWhile (fun c => IsSpaceChar c)
    let signAndDigits : Bool × List Char :=
      match cs1 with
      | c :: t => if c = '-' then (true, t) else if c = '+' then (false, t) else (false, cs1)
      | [] => (false, [])
    let neg := signAndDigits.1
    let digits := signAndDigits.2
    if digits.isEmpty || !(digits.all IsDigitChar) then fallback
    else
      let n : Nat := digits.foldl (fun a c => 10 * a + (c.toNat - 48)) 0
      let v : Int := if neg then -(n : Int) else (n : Int)
      if v < -(2 ^ 31 : Int) || v > 2 ^ 31 - 1 then fallback else v

/-! ### Data model (main.cpp 57-82) -/

/-- Model of `SharedState` (main.cpp 57-73).  The mutex is not modeled:
every access in the source holds the single lock for its whole duration, so
each locked section is one atomic operation on this record. -/
structure SharedState where
  running : Bool
  bind_addr : String
  current_url : String
  title : String
  last_error : String
  last_ipc : String
  open_requests : Nat
  eval_requests : Nat
  input_requests : Nat
  frame_capture : Bool
  frame_width : Nat
  frame_height : Nat
  frame_seq : Nat
  frame_bgra : List Nat
deriving DecidableEq

/-- Model of `HttpRequest` (main.cpp 75-82); the `std::map`s are association
lists with unique keys (`ParseUrlEncoded` makes the last duplicate win). -/
structure HttpRequest where
  method : String
  path : String
  query : List (String × String)
  headers : List (String × String)
  form : List (String × String)
  body : String
deriving DecidableEq

/-- Model of `GetParam` (main.cpp 432-442): query first, then form, then the
empty string — so an absent key and a key mapped to the empty value are
indistinguishable to every caller. -/
def GetParam (req : HttpRequest) (key : String) : String :=
  match List.lookup key req.query with
  | some v => v
  | none =>
    match List.lookup key req.form with
    | some v => v
    | none => ""

/-- Mouse input kinds of `NativeInputKind` (main.cpp 488-491). -/
inductive NativeInputKind where
  | mouseClick
  | mouseScroll
deriving DecidableEq

/-- Commands handed to `CefPostTask`: the four `CefTask` subclasses
(main.cpp 444-556). -/
inductive Command where
  | openUrl (url : String)
  | evalScript (js : String)
  | nativeInput (kind : NativeInputKind) (x y delta : Int)
  | quit
deriving DecidableEq

/-- Status line and body of one HTTP response (`SendHttpResponse` callers;
the body `String` carries the response bytes as characters). -/
structure HttpResponse where
  status : Nat
  body : String
deriving DecidableEq

/-- Result of dispatching one parsed request: the session state afterwards,
the response written, and the task handed to `CefPostTask` (if any). -/
structure DispatchResult where
  state : SharedState
  response : HttpResponse
  posted : Option Command
deriving DecidableEq

/-- Model of `BuildStatusJson` (main.cpp 244-266). -/
def BuildStatusJson (state : SharedState) : String :=
  "\x7b\"ok\":true,\"backend\":\"cef\",\"mode\":\"host-http-bridge\",\"running\":" ++
  (if state.running then "true" else "false") ++
  ",\"bind_addr\":\"" ++ JsonEscape state.bind_addr ++
  "\",\"current_url\":\"" ++ JsonEscape state.current_url ++
  "\",\"title\":\"" ++ JsonEscape state.title ++
  "\",\"open_requests\":" ++ Nat.repr state.open_requests ++
  ",\"eval_requests\":" ++ Nat.repr state.eval_requests ++
  ",\"input_requests\":" ++ Nat.repr state.input_requests ++
  ",\"frame_capture\":" ++ (if state.frame_capture then "true" else "false") ++
  ",\"frame_width\":" ++ Nat.repr state.frame_width ++
  ",\"frame_height\":" ++ Nat.repr state.frame_height ++
  ",\"frame_seq\":" ++ Nat.repr state.frame_seq ++
  ",\"last_error\":\"" ++ JsonEscape state.last_error ++
  "\",\"last_ipc\":\"" ++ JsonEscape state.last_ipc ++ "\"\x7d"

/-- Model of `BuildInputScript` (main.cpp 558-586); byte `\x27` is the
single quote of the C++ string literals and `\x7b`/`\x7d` are the braces. -/
def BuildInputScript (req : HttpRequest) : String :=
  let type := ToLowerAscii (GetParam req "type")
  if type = "text" then
    "(()=>\x7bconst t=\x27" ++ JsSingleQuoteEscape (GetParam req "text") ++
    "\x27;const el=document.activeElement;if(el&&(\x27value\x27 in el))\x7bel.value+=t;el.dispatchEvent(new Event(\x27input\x27,\x7bbubbles:true\x7d));\x7delse\x7bdocument.body.append(t);\x7d\x7d)();"
  else if type = "key" then
    let key0 := GetParam req "key"
    let key := if key0 = "" then "Enter" else key0
    "(()=>\x7bconst k=\x27" ++ JsSingleQuoteEscape key ++
    "\x27;document.dispatchEvent(new KeyboardEvent(\x27keydown\x27,\x7bkey:k,bubbles:true\x7d));document.dispatchEvent(new KeyboardEvent(\x27keyup\x27,\x7bkey:k,bubbles:true\x7d));\x7d)();"
  else if type = "back" then "(()=>\x7bhistory.back();\x7d)();"
  else if type = "forward" then "(()=>\x7bhistory.forward();\x7d)();"
  else if type = "reload" then "(()=>\x7blocation.reload();\x7d)();"
  else ""

/-! ### Route handlers (main.cpp 689-863) -/

/-- Body sent with every 500 `post task failed` response. -/
def PostFailBody : String := "\x7b\"ok\":false,\"error\":\"post task failed\"\x7d"

/-- Body sent with the 400 `input type invalid` responses. -/
def InvalidInputTypeBody : String := "\x7b\"ok\":false,\"error\":\"input type invalid\"\x7d"

/-- The `/open` branch (main.cpp 695-717).  `postOk` is the boolean result
of `CefPostTask`. -/
def HandleOpen (state : SharedState) (req : HttpRequest) (postOk : Bool) : DispatchResult :=
  let url := GetParam req "url"
  if url = "" then
    ⟨state, ⟨400, "\x7b\"ok\":false,\"error\":\"missing url\"\x7d"⟩, none⟩
  else
    let st1 := { state with open_requests := (state.open_requests + 1) % U64 }
    if !postOk then
      ⟨{ st1 with last_error := "open failed: CefPostTask error" }, ⟨500, PostFailBody⟩,
        some (Command.openUrl url)⟩
    else
      ⟨st1, ⟨200, "\x7b\"ok\":true,\"queued\":\"open\",\"url\":\"" ++ JsonEscape url ++ "\"\x7d"⟩,
        some (Command.openUrl url)⟩

/-- The `/eval` branch (main.cpp 719-740). -/
def HandleEval (state : SharedState) (req : HttpRequest) (postOk : Bool) : DispatchResult :=
  let js := GetParam req "js"
  if js = "" then
    ⟨state, ⟨400, "\x7b\"ok\":false,\"error\":\"missing js\"\x7d"⟩, none⟩
  else
    let st1 := { state with eval_requests := (state.eval_requests + 1) % U64 }
    if !postOk then
      ⟨{ st1 with last_error := "eval failed: CefPostTask error" }, ⟨500, PostFailBody⟩,
        some (Command.evalScript js)⟩
    else
      ⟨st1, ⟨200, "\x7b\"ok\":true,\"queued\":\"eval\"\x7d"⟩, some (Command.evalScript js)⟩

/-- The `/input` branch (main.cpp 742-811).  An empty (lower-cased) type is
rejected before the counter increment; every other type increments the
counter first.  The scroll branch reads the frame dimensions under the same
lock (the `static_cast<int>` of `uint32 / 2` is value-preserving since the
quotient is below `2^31`). -/
def HandleInput (state : SharedState) (req : HttpRequest) (postOk : Bool) : DispatchResult :=
  let input_type := ToLowerAscii (GetParam req "type")
  if input_type = "" then
    ⟨state, ⟨400, InvalidInputTypeBody⟩, none⟩
  else
    let st1 := { state with input_requests := (state.input_requests + 1) % U64 }
    if input_type = "click" then
      let x := ParseIntDefault (GetParam req "x") (-1)
      let y := ParseIntDefault (GetParam req "y") (-1)
      if x < 0 ∨ y < 0 then
        ⟨st1, ⟨400, "\x7b\"ok\":false,\"error\":\"click requires x and y\"\x7d"⟩, none⟩
      else if !postOk then
        ⟨{ st1 with last_error := "input click failed: CefPostTask error" }, ⟨500, PostFailBody⟩,
          some (Command.nativeInput NativeInputKind.mouseClick x y 0)⟩
      else
        ⟨st1, ⟨200, "\x7b\"ok\":true,\"queued\":\"click\"\x7d"⟩,
          some (Command.nativeInput NativeInputKind.mouseClick x y 0)⟩
    else if input_type = "scroll" then
      let x0 := ParseIntDefault (GetParam req "x") (-1)
      let y0 := ParseIntDefault (GetParam req "y") (-1)
      let delta := ParseIntDefault (GetParam req "delta") 120
      let x := if x0 < 0 then (state.frame_width / 2 : Int) else x0
      let y := if y0 < 0 then (state.frame_height / 2 : Int) else y0
      if !postOk then
        ⟨{ st1 with last_error := "input scroll failed: CefPostTask error" }, ⟨500, PostFailBody⟩,
          some (Command.nativeInput NativeInputKind.mouseScroll x y delta)⟩
      else
        ⟨st1, ⟨200, "\x7b\"ok\":true,\"queued\":\"scroll\"\x7d"⟩,
          some (Command.nativeInput NativeInputKind.mouseScroll x y delta)⟩
    else
      let js := BuildInputScript req
      if js = "" then
        ⟨st1, ⟨400, InvalidInputTypeBody⟩, none⟩
      else if !postOk then
        ⟨{ st1 with last_error := "input failed: CefPostTask error" }, ⟨500, PostFailBody⟩,
          some (Command.evalScript js)⟩
      else
        ⟨st1, ⟨200, "\x7b\"ok\":true,\"queued\":\"input\"\x7d"⟩, some (Command.evalScript js)⟩

/-- Pixel re-encoding loop of the `/frame` branch (main.cpp 838-845): for
each of the `n` pixels take 4 BGRA bytes and emit the 3 bytes R, G, B. -/
def FrameRgbPixels : Nat → List Nat → List Char
  | 0, _ => []
  | n + 1, b :: g :: r :: _ :: rest =>
    Char.ofNat r :: Char.ofNat g :: Char.ofNat b :: FrameRgbPixels n rest
  | _ + 1, _ => []

/-- The `/frame` branch (main.cpp 813-850).  Note the not-ready test is on
the dimensions and buffer length, not on the `frame_capture` flag. -/
def HandleFrame (state : SharedState) : DispatchResult :=
  let width := state.frame_width
  let height := state.frame_height
  let bgra := state.frame_bgra
  let expected := width * height * 4
  if width = 0 ∨ height = 0 ∨ bgra.length < expected then
    ⟨state, ⟨503, "\x7b\"ok\":false,\"error\":\"no frame yet (wait for OnPaint)\"\x7d"⟩, none⟩
  else
    ⟨state,
      ⟨200, "P6\n" ++ Nat.repr width ++ " " ++ Nat.repr height ++ "\n255\n" ++
        String.mk (FrameRgbPixels (width * height) bgra)⟩,
      none⟩

/-- The `/quit` branch (main.cpp 852-858): the task is handed to
`CefPostTask` but the boolean result is discarded, and the response is an
unconditional 200 acknowledgement. -/
def HandleQuit (state : SharedState) : DispatchResult :=
  ⟨state, ⟨200, "\x7b\"ok\":true,\"queued\":\"quit\"\x7d"⟩, some Command.quit⟩

/-- Dispatch of one parsed request: the route chain of `ServeHttp`'s loop
body (main.cpp 689-863).  `postOk` is the result `CefPostTask` returns if
the branch posts a task. -/
def ServeHttpRequest (state : SharedState) (req : HttpRequest) (postOk : Bool) : DispatchResult :=
  if req.path = "/status" then ⟨state, ⟨200, BuildStatusJson state⟩, none⟩
  else if req.path = "/open" then HandleOpen state req postOk
  else if req.path = "/eval" then HandleEval state req postOk
  else if req.path = "/input" then HandleInput state req postOk
  else if req.path = "/frame" then HandleFrame state
  else if req.path = "/quit" then HandleQuit state
  else ⟨state, ⟨404, "routes: /status /open?url= /eval?js= /input?type=... /frame /quit\n"⟩, none⟩

/-! ### Whole-program operations on the session state -/

/-- Every operation of the program that mutates `SharedState`:

* `serve` — the listener thread dispatches one parsed request;
* `listenerFail` — one of the `SetError` calls during listener setup
  (main.cpp 607-649);
* `openExec` / `evalExec` / `inputExec` — the `Execute` bodies of
  `OpenUrlTask` / `EvalTask` / `NativeInputTask` on the control thread,
  with `browserReady` telling whether a browser (and frame/host) exists;
* `quitExec` — `QuitTask::Execute` (main.cpp 547-550);
* `onPaint` — `ReduxBrowserClient::OnPaint` (main.cpp 922-941);
* `titleChange` — `OnTitleChange`'s `SetTitle` (main.cpp 943-949);
* `beforeClose` — `OnBeforeClose`'s `SetRunning false` (main.cpp 960-964);
* `mainShutdown` — the `SetRunning false` after the message loop in `main`
  (main.cpp 1043). -/
inductive Op where
  | serve (req : HttpRequest) (postOk : Bool)
  | listenerFail (msg : String)
  | openExec (url : String) (browserReady : Bool)
  | evalExec (js : String) (browserReady : Bool)
  | inputExec (kind : NativeInputKind) (x y delta : Int) (browserReady : Bool)
  | quitExec
  | onPaint (w h : Nat) (buf : List Nat)
  | titleChange (t : String)
  | beforeClose
  | mainShutdown

/-- Effect of one operation on the session state.  `onPaint` is guarded the
way the callback is in the source (`width <= 0 || height <= 0` returns; the
`int` arguments are below `2^31`) together with the CEF contract that the
supplied buffer holds `width * height * 4` readable bytes, of which
`assign(src, src + bytes)` copies exactly the first `w * h * 4`. -/
def ApplyOp (s : SharedState) : Op → SharedState
  | .serve req postOk => (ServeHttpRequest s req postOk).state
  | .listenerFail msg => { s with last_error := msg }
  | .openExec url browserReady =>
      if browserReady then { s with current_url := url }
      else { s with last_error := "open failed: browser not ready" }
  | .evalExec _ browserReady =>
      if browserReady then s else { s with last_error := "eval failed: browser not ready" }
  | .inputExec _ _ _ _ browserReady =>
      if browserReady then s else { s with last_error := "input failed: browser not ready" }
  | .quitExec => { s with running := false }
  | .onPaint w h buf =>
      if 0 < w ∧ 0 < h ∧ w < 2 ^ 31 ∧ h < 2 ^ 31 ∧ w * h * 4 ≤ buf.length then
        { s with frame_capture := true, frame_width := w, frame_height := h,
                 frame_seq := (s.frame_seq + 1) % U64, frame_bgra := buf.take (w * h * 4) }
      else s
  | .titleChange t => { s with title := t }
  | .beforeClose => { s with running := false }
  | .mainShutdown => { s with running := false }

/-- Left fold of `ApplyOp` over a list of operations. -/
def ApplyOps (s : SharedState) (ops : List Op) : SharedState := ops.foldl ApplyOp s

/-- Session state built in `main` (main.cpp 1010-1015) from the parsed
arguments; `ParseArgs` clamps the viewport to at least 320 x 200
(main.cpp 896-897) before the widths are stored as `uint32_t`. -/
def InitState (bind_addr start_url : String) (view_width view_height : Int) : SharedState :=
  { running := true
    bind_addr := bind_addr
    current_url := start_url
    title := "ReduxOS CEF Host Bridge (OSR)"
    last_error := ""
    last_ipc := ""
    open_requests := 0
    eval_requests := 0
    input_requests := 0
    frame_capture := false
    frame_width := (max 320 view_width).toNat
    frame_height := (max 200 view_height).toNat
    frame_seq := 0
    frame_bgra := [] }

/-- Session states the program can reach: the initial state of `main` (the
viewport arguments are C++ `int`s, hence below `2^31`) closed under all
state-mutating operations. -/
inductive Reachable : SharedState → Prop
  | init (ba su : String) (vw vh : Int) (hw : vw < 2 ^ 31) (hh : vh < 2 ^ 31) :
      Reachable (InitState ba su vw vh)
  | step (s : SharedState) (op : Op) (h : Reachable s) : Reachable (ApplyOp s op)

/-! ### Helper lemmas: route dispatch -/

lemma serve_status_eq (s : SharedState) (req : HttpRequest) (ok : Bool)
    (h : req.path = "/status") :
    ServeHttpRequest s req ok = ⟨s, ⟨200, BuildStatusJson s⟩, none⟩ := by
  unfold ServeHttpRequest
  rw [h]
  rfl

lemma serve_open_eq (s : SharedState) (req : HttpRequest) (ok : Bool)
    (h : req.path = "/open") :
    ServeHttpRequest s req ok = HandleOpen s req ok := by
  unfold ServeHttpRequest
  rw [h]
  rfl

lemma serve_eval_eq (s : SharedState) (req : HttpRequest) (ok : Bool)
    (h : req.path = "/eval") :
    ServeHttpRequest s req ok = HandleEval s req ok := by
  unfold ServeHttpRequest
  rw [h]
  rfl

lemma serve_input_eq (s : SharedState) (req : HttpRequest) (ok : Bool)
    (h : req.path = "/input") :
    ServeHttpRequest s req ok = HandleInput s req ok := by
  unfold ServeHttpRequest
  rw [h]
  rfl

lemma serve_frame_eq (s : SharedState) (req : HttpRequest) (ok : Bool)
    (h : req.path = "/frame") :
    ServeHttpRequest s req ok = HandleFrame s := by
  unfold ServeHttpRequest
  rw [h]
  rfl

lemma serve_quit_eq (s : SharedState) (req : HttpRequest) (ok : Bool)
    (h : req.path = "/quit") :
    ServeHttpRequest s req ok = HandleQuit s := by
  unfold ServeHttpRequest
  rw [h]
  rfl

lemma serve_notfound_eq (s : SharedState) (req : HttpRequest) (ok : Bool)
    (h1 : ¬req.path = "/status") (h2 : ¬req.path = "/open") (h3 : ¬req.path = "/eval")
    (h4 : ¬req.path = "/input") (h5 : ¬req.path = "/frame") (h6 : ¬req.path = "/quit") :
    ServeHttpRequest s req ok =
      ⟨s, ⟨404, "routes: /status /open?url= /eval?js= /input?type=... /frame /quit\n"⟩, none⟩ := by
  unfold ServeHttpRequest
  rw [if_neg h1, if_neg h2, if_neg h3, if_neg h4, if_neg h5, if_neg h6]

/-! ### Helper lemmas: how one dispatch evolves the session state -/

/-- The dispatch left the frame snapshot fields untouched. -/
def FramePreserved (s t : SharedState) : Prop :=
  t.frame_capture = s.frame_capture ∧ t.frame_width = s.frame_width ∧
  t.frame_height = s.frame_height ∧ t.frame_bgra = s.frame_bgra

/-- A `uint64_t` counter is either untouched or incremented once. -/
def CounterEvolves (a b : Nat) : Prop := b = a ∨ b = (a + 1) % U64

lemma handleFrame_state (s : SharedState) : (HandleFrame s).state = s := by
  simp only [HandleFrame]
  split <;> rfl

lemma handleOpen_state (s : SharedState) (req : HttpRequest) (ok : Bool) :
    FramePreserved s (HandleOpen s req ok).state ∧
    (HandleOpen s req ok).state.running = s.running ∧
    (HandleOpen s req ok).state.frame_seq = s.frame_seq ∧
    CounterEvolves s.open_requests (HandleOpen s req ok).state.open_requests ∧
    (HandleOpen s req ok).state.eval_requests = s.eval_requests ∧
    (HandleOpen s req ok).state.input_requests = s.input_requests := by
  unfold HandleOpen
  by_cases hu : GetParam req "url" = ""
  · simp [hu, FramePreserved, CounterEvolves]
  · cases ok <;> simp [hu, FramePreserved, CounterEvolves]

lemma handleEval_state (s : SharedState) (req : HttpRequest) (ok : Bool) :
    FramePreserved s (HandleEval s req ok).state ∧
    (HandleEval s req ok).state.running = s.running ∧
    (HandleEval s req ok).state.frame_seq = s.frame_seq ∧
    (HandleEval s req ok).state.open_requests = s.open_requests ∧
    CounterEvolves s.eval_requests (HandleEval s req ok).state.eval_requests ∧
    (HandleEval s req ok).state.input_requests = s.input_requests := by
  unfold HandleEval
  by_cases hj : GetParam req "js" = ""
  · simp [hj, FramePreserved, CounterEvolves]
  · cases ok <;> simp [hj, FramePreserved, CounterEvolves]

lemma handleInput_state (s : SharedState) (req : HttpRequest) (ok : Bool) :
    FramePreserved s (HandleInput s req ok).state ∧
    (HandleInput s req ok).state.running = s.running ∧
    (HandleInput s req ok).state.frame_seq = s.frame_seq ∧
    (HandleInput s req ok).state.open_requests = s.open_requests ∧
    (HandleInput s req ok).state.eval_requests = s.eval_requests ∧
    CounterEvolves s.input_requests (HandleInput s req ok).state.input_requests := by
  unfold HandleInput
  by_cases h0 : ToLowerAscii (GetParam req "type") = ""
  · simp [h0, FramePreserved, CounterEvolves]
  · by_cases hc : ToLowerAscii (GetParam req "type") = "click"
    · by_cases hxy : ParseIntDefault (GetParam req "x") (-1) < 0 ∨
          ParseIntDefault (GetParam req "y") (-1) < 0
      · simp [h0, hc, hxy, FramePreserved, CounterEvolves]
      · cases ok <;> simp [h0, hc, hxy, FramePreserved, CounterEvolves]
    · by_cases hs : ToLowerAscii (GetParam req "type") = "scroll"
      · cases ok <;> simp [h0, hc, hs, FramePreserved, CounterEvolves]
      · by_cases hb : BuildInputScript req = ""
        · simp [h0, hc, hs, hb, FramePreserved, CounterEvolves]
        · cases ok <;> simp [h0, hc, hs, hb, FramePreserved, CounterEvolves]

/-- One request dispatch preserves the frame snapshot, the running flag and
the frame sequence number, and touches each request counter at most once. -/
lemma serve_state (s : SharedState) (req : HttpRequest) (ok : Bool) :
    FramePreserved s (ServeHttpRequest s req ok).state ∧
    (ServeHttpRequest s req ok).state.running = s.running ∧
    (ServeHttpRequest s req ok).state.frame_seq = s.frame_seq ∧
    CounterEvolves s.open_requests (ServeHttpRequest s req ok).state.open_requests ∧
    CounterEvolves s.eval_requests (ServeHttpRequest s req ok).state.eval_requests ∧
    CounterEvolves s.input_requests (ServeHttpRequest s req ok).state.input_requests := by
  by_cases h1 : req.path = "/status"
  · rw [serve_status_eq s req ok h1]
    simp [FramePreserved, CounterEvolves]
  by_cases h2 : req.path = "/open"
  · rw [serve_open_eq s req ok h2]
    have h := handleOpen_state s req ok
    exact ⟨h.1, h.2.1, h.2.2.1, h.2.2.2.1, Or.inl h.2.2.2.2.1, Or.inl h.2.2.2.2.2⟩
  by_cases h3 : req.path = "/eval"
  · rw [serve_eval_eq s req ok h3]
    have h := handleEval_state s req ok
    exact ⟨h.1, h.2.1, h.2.2.1, Or.inl h.2.2.2.1, h.2.2.2.2.1, Or.inl h.2.2.2.2.2⟩
  by_cases h4 : req.path = "/input"
  · rw [serve_input_eq s req ok h4]
    have h := handleInput_state s req ok
    exact ⟨h.1, h.2.1, h.2.2.1, Or.inl h.2.2.2.1, Or.inl h.2.2.2.2.1, h.2.2.2.2.2⟩
  by_cases h5 : req.path = "/frame"
  · rw [serve_frame_eq s req ok h5, handleFrame_state s]
    simp [FramePreserved, CounterEvolves]
  by_cases h6 : req.path = "/quit"
  · rw [serve_quit_eq s req ok h6]
    simp [HandleQuit, FramePreserved, CounterEvolves]
  · rw [serve_notfound_eq s req ok h1 h2 h3 h4 h5 h6]
    simp [FramePreserved, CounterEvolves]

/-! ### Helper lemmas: evolution under all program operations -/

lemma applyOp_running (s : SharedState) (op : Op) :
    (ApplyOp s op).running = true → s.running = true := by
  cases op with
  | serve req ok =>
    simp only [ApplyOp]
    rw [(serve_state s req ok).2.1]
    exact id
  | listenerFail msg => simp [ApplyOp]
  | openExec url r => by_cases hr : r <;> simp [ApplyOp, hr]
  | evalExec js r => by_cases hr : r <;> simp [ApplyOp, hr]
  | inputExec k x y d r => by_cases hr : r <;> simp [ApplyOp, hr]
  | quitExec => simp [ApplyOp]
  | onPaint w hgt buf =>
    simp only [ApplyOp]
    split <;> simp
  | titleChange t => simp [ApplyOp]
  | beforeClose => simp [ApplyOp]
  | mainShutdown => simp [ApplyOp]

lemma applyOp_counters (s : SharedState) (op : Op) :
    CounterEvolves s.open_requests (ApplyOp s op).open_requests ∧
    CounterEvolves s.eval_requests (ApplyOp s op).eval_requests ∧
    CounterEvolves s.input_requests (ApplyOp s op).input_requests ∧
    CounterEvolves s.frame_seq (ApplyOp s op).frame_seq := by
  cases op with
  | serve req ok =>
    have h := serve_state s req ok
    simp only [ApplyOp]
    exact ⟨h.2.2.2.1, h.2.2.2.2.1, h.2.2.2.2.2, Or.inl h.2.2.1⟩
  | listenerFail msg => simp [ApplyOp, CounterEvolves]
  | openExec url r => by_cases hr : r <;> simp [ApplyOp, hr, CounterEvolves]
  | evalExec js r => by_cases hr : r <;> simp [ApplyOp, hr, CounterEvolves]
  | inputExec k x y d r => by_cases hr : r <;> simp [ApplyOp, hr, CounterEvolves]
  | quitExec => simp [ApplyOp, CounterEvolves]
  | onPaint w hgt buf =>
    simp only [ApplyOp]
    split <;> simp [CounterEvolves]
  | titleChange t => simp [ApplyOp, CounterEvolves]
  | beforeClose => simp [ApplyOp, CounterEvolves]
  | mainShutdown => simp [ApplyOp, CounterEvolves]

/-- Invariant of claim C8: whenever the capture flag is set, the stored
buffer holds at least `width * height * 4` bytes. -/
def CaptureInv (s : SharedState) : Prop :=
  s.frame_capture = true → s.frame_width * s.frame_height * 4 ≤ s.frame_bgra.length

/-- Shape invariant of every reachable session state: positive frame
dimensions, an exact-size buffer once the capture flag is set, and an empty
buffer before the first paint callback. -/
def StateInv (s : SharedState) : Prop :=
  0 < s.frame_width ∧ 0 < s.frame_height ∧
  (s.frame_capture = true → s.frame_bgra.length = s.frame_width * s.frame_height * 4) ∧
  (s.frame_capture = false → s.frame_bgra = [])

lemma captureInv_step (s : SharedState) (op : Op) (h : CaptureInv s) :
    CaptureInv (ApplyOp s op) := by
  cases op with
  | serve req ok =>
    obtain ⟨hc, hw, hh, hb⟩ := (serve_state s req ok).1
    intro hcap
    simp only [ApplyOp] at hcap ⊢
    rw [hw, hh, hb]
    exact h (hc ▸ hcap)
  | listenerFail msg => exact h
  | openExec url r => by_cases hr : r <;> simp only [ApplyOp, hr, if_true, if_false] <;> exact h
  | evalExec js r => by_cases hr : r <;> simp only [ApplyOp, hr, if_true, if_false] <;> exact h
  | inputExec k x y d r =>
    by_cases hr : r <;> simp only [ApplyOp, hr, if_true, if_false] <;> exact h
  | quitExec => exact h
  | onPaint w hgt buf =>
    simp only [ApplyOp]
    split
    · rename_i hg
      intro _
      simp only [List.length_take]
      omega
    · exact h
  | titleChange t => exact h
  | beforeClose => exact h
  | mainShutdown => exact h

lemma stateInv_init (ba su : String) (vw vh : Int) : StateInv (InitState ba su vw vh) := by
  refine ⟨?_, ?_, ?_, ?_⟩
  · simp only [InitState]
    have := le_max_left (320 : Int) vw
    omega
  · simp only [InitState]
    have := le_max_left (200 : Int) vh
    omega
  · intro hcap
    simp [InitState] at hcap
  · intro _
    rfl

lemma stateInv_step (s : SharedState) (op : Op) (h : StateInv s) :
    StateInv (ApplyOp s op) := by
  obtain ⟨h1, h2, h3, h4⟩ := h
  cases op with
  | serve req ok =>
    obtain ⟨hc, hw, hh, hb⟩ := (serve_state s req ok).1
    simp only [ApplyOp]
    refine ⟨?_, ?_, ?_, ?_⟩
    · rw [hw]; exact h1
    · rw [hh]; exact h2
    · intro hcap
      rw [hw, hh, hb]
      exact h3 (hc ▸ hcap)
    · intro hcap
      rw [hb]
      exact h4 (hc ▸ hcap)
  | listenerFail msg => exact ⟨h1, h2, h3, h4⟩
  | openExec url r =>
    by_cases hr : r <;> simp only [ApplyOp, hr, if_true, if_false] <;> exact ⟨h1, h2, h3, h4⟩
  | evalExec js r =>
    by_cases hr : r <;> simp only [ApplyOp, hr, if_true, if_false] <;> exact ⟨h1, h2, h3, h4⟩
  | inputExec k x y d r =>
    by_cases hr : r <;> simp only [ApplyOp, hr, if_true, if_false] <;> exact ⟨h1, h2, h3, h4⟩
  | quitExec => exact ⟨h1, h2, h3, h4⟩
  | onPaint w hgt buf =>
    simp only [ApplyOp]
    split
    · rename_i hg
      refine ⟨hg.1, hg.2.1, ?_, ?_⟩
      · intro _
        simp only [List.length_take]
        omega
      · intro hcap
        simp at hcap
    · exact ⟨h1, h2, h3, h4⟩
  | titleChange t => exact ⟨h1, h2, h3, h4⟩
  | beforeClose => exact ⟨h1, h2, h3, h4⟩
  | mainShutdown => exact ⟨h1, h2, h3, h4⟩

lemma reachable_stateInv (s : SharedState) (h : Reachable s) : StateInv s := by
  induction h with
  | init ba su vw vh hw hh => exact stateInv_init ba su vw vh
  | step s op _ ih => exact stateInv_step s op ih

lemma stateInv_captureInv (s : SharedState) (h : StateInv s) : CaptureInv s :=
  fun hcap => le_of_eq (h.2.2.1 hcap).symm

/-! ### Shared concrete sample inputs -/

/-- Session state of a bridge started with the default arguments. -/
def SampleState : SharedState :=
  InitState "127.0.0.1:37820" "https://www.google.com" 1024 640

/-- Sample state after one 2 x 1 paint callback with a known BGRA buffer. -/
def PaintedState : SharedState :=
  ApplyOp SampleState (Op.onPaint 2 1 [10, 20, 30, 40, 50, 60, 70, 80])

/-- Plain `/frame` request. -/
def FrameReq : HttpRequest := ⟨"get", "/frame", [], [], [], ""⟩

/-- Plain `/quit` request. -/
def QuitReq : HttpRequest := ⟨"get", "/quit", [], [], [], ""⟩

/-- Request `/open?url=http://x`. -/
def OpenXReq : HttpRequest := ⟨"get", "/open", [("url", "http://x")], [], [], ""⟩

/-- Request `/open?url=` — the parameter is present with an empty value. -/
def OpenEmptyUrlReq : HttpRequest := ⟨"get", "/open", [("url", "")], [], [], ""⟩

/-- Request `/open` with no parameters at all. -/
def OpenNoUrlReq : HttpRequest := ⟨"get", "/open", [], [], [], ""⟩

/-- Request `/eval` without a `js` parameter. -/
def EvalNoJsReq : HttpRequest := ⟨"post", "/eval", [], [], [], ""⟩

/-- Request `/input` without a `type` parameter. -/
def InputNoTypeReq : HttpRequest := ⟨"get", "/input", [], [], [], ""⟩

/-- Request `/input?type=scroll` with no coordinates and no delta. -/
def InputScrollReq : HttpRequest := ⟨"get", "/input", [("type", "scroll")], [], [], ""⟩

/-- Request `/input?type=bogus` — a non-empty unknown input type. -/
def InputBogusReq : HttpRequest := ⟨"get", "/input", [("type", "bogus")], [], [], ""⟩

/-! ### Claim C2 -/

lemma hex_ne_zero (b : Nat) (h : IsHexDigitByte b = true) : b ≠ 0 := by
  simp only [IsHexDigitByte, Bool.or_eq_true, Bool.and_eq_true, decide_eq_true_eq] at h
  omega

lemma hexDigitVal_lt (b : Nat) (h : IsHexDigitByte b = true) : HexDigitVal b < 16 := by
  simp only [IsHexDigitByte, Bool.or_eq_true, Bool.and_eq_true, decide_eq_true_eq] at h
  unfold HexDigitVal
  split
  · omega
  · split <;> omega

/-- C2 (amended): the decoder turns `+` into a space and decodes `%XY` for
valid hexadecimal digits `X`, `Y` to the byte `0xXY`; a `%` followed by
fewer than two bytes passes through; a `%` followed by two bytes passes
through exactly when the `strtol` acceptance test rejects them — but when
`strtol` accepts them (which it also does for sign-, whitespace- or
NUL-prefixed forms such as `%+5`), the decoder emits the byte
`value mod 256` instead of passing the sequence through. -/
theorem C2_theorem : ∀ (c1 c2 : Nat) (rest : List Nat),
    UrlDecode (43 :: rest) = 32 :: UrlDecode rest ∧
    (IsHexDigitByte c1 = true → IsHexDigitByte c2 = true →
      UrlDecode (37 :: c1 :: c2 :: rest) =
        (16 * HexDigitVal c1 + HexDigitVal c2) :: UrlDecode rest) ∧
    (∀ v : Int, StrtolHexPair c1 c2 = some v →
      UrlDecode (37 :: c1 :: c2 :: rest) = (v % 256).toNat :: UrlDecode rest) ∧
    (StrtolHexPair c1 c2 = none →
      UrlDecode (37 :: c1 :: c2 :: rest) = 37 :: UrlDecode (c1 :: c2 :: rest)) ∧
    UrlDecode [37] = [37] ∧
    UrlDecode [37, c1] = 37 :: UrlDecode [c1] := by
  intro c1 c2 rest
  have hsome : ∀ v : Int, StrtolHexPair c1 c2 = some v →
      UrlDecode (37 :: c1 :: c2 :: rest) = (v % 256).toNat :: UrlDecode rest := by
    intro v hv
    simp only [UrlDecode, hv]
  have hnone : StrtolHexPair c1 c2 = none →
      UrlDecode (37 :: c1 :: c2 :: rest) = 37 :: UrlDecode (c1 :: c2 :: rest) := by
    intro hv
    simp only [UrlDecode, hv]
  refine ⟨rfl, ?_, hsome, hnone, rfl, rfl⟩
  intro hx1 hx2
  have hvlt1 := hexDigitVal_lt c1 hx1
  have hvlt2 := hexDigitVal_lt c2 hx2
  have hs : StrtolHexPair c1 c2 =
      some (16 * (HexDigitVal c1 : Int) + (HexDigitVal c2 : Int)) := by
    unfold StrtolHexPair
    rw [if_neg (hex_ne_zero c1 hx1), if_pos (by rw [hx1, hx2]; rfl)]
  rw [hsome _ hs]
  congr 1
  omega

/-- C2 counterexample: on the input `%+5` (bytes 37, 43, 53) the decoder
emits the byte 5 — `+` is not a hexadecimal digit, so the claim requires the
sequence to pass through unchanged, which it does not. -/
theorem C2_counterexample :
    UrlDecode [37, 43, 53] = [5] ∧ UrlDecode [37, 43, 53] ≠ [37, 43, 53] := by
  decide

/-- C2 witness: `%41` decodes to byte 65, `+a` to space then `a`, `%G1`
passes through, `%-1` decodes to byte 255, and truncated `%`/`%5` pass
through. -/
theorem C2_witness :
    UrlDecode [37, 52, 49] = [65] ∧
    UrlDecode [43, 97] = [32, 97] ∧
    UrlDecode [37, 71, 49] = [37, 71, 49] ∧
    UrlDecode [37, 45, 49] = [255] ∧
    UrlDecode [37] = [37] ∧
    UrlDecode [37, 53] = [37, 53] := by
  refine ⟨?_, ?_, ?_, ?_, ?_, ?_⟩
  · rw [(C2_theorem 52 49 []).2.1 (by decide) (by decide)]
    decide
  · rw [(C2_theorem 97 0 [97]).1]
    decide
  · rw [(C2_theorem 71 49 []).2.2.2.1 (by decide)]
    decide
  · rw [(C2_theorem 45 49 []).2.2.1 (-1) (by decide)]
    decide
  · exact (C2_theorem 0 0 []).2.2.2.2.1
  · rw [(C2_theorem 53 0 []).2.2.2.2.2]
    decide

/-! ### Claim C1 -/

lemma handleFrame_posted (s : SharedState) : (HandleFrame s).posted = none := by
  simp only [HandleFrame]
  split <;> rfl

/-- C1 (amended): on `/open`, `/eval` and `/input`, a rejected post yields a
500 response and records a `CefPostTask error` message in the last-error
field; but `/quit` discards the post result — it answers 200 and leaves the
state untouched even when the queue rejected the quit task, so that error
is dropped without appearing in the response or in last-error. -/
theorem C1_theorem :
    (∀ (s : SharedState) (req : HttpRequest) (c : Command),
      (ServeHttpRequest s req false).posted = some c → ¬req.path = "/quit" →
      (ServeHttpRequest s req false).response.status = 500 ∧
      (ServeHttpRequest s req false).state.last_error ∈
        (["open failed: CefPostTask error", "eval failed: CefPostTask error",
          "input click failed: CefPostTask error", "input scroll failed: CefPostTask error",
          "input failed: CefPostTask error"] : List String)) ∧
    (∀ (s : SharedState) (req : HttpRequest),
      req.path = "/quit" →
      (ServeHttpRequest s req false).posted = some Command.quit ∧
      (ServeHttpRequest s req false).response.status = 200 ∧
      (ServeHttpRequest s req false).state = s) := by
  constructor
  · intro s req c hp hq
    by_cases h1 : req.path = "/status"
    · rw [serve_status_eq s req false h1] at hp
      simp at hp
    · by_cases h2 : req.path = "/open"
      · rw [serve_open_eq s req false h2] at hp ⊢
        by_cases hu : GetParam req "url" = ""
        · simp [HandleOpen, hu] at hp
        · simp [HandleOpen, hu]
      · by_cases h3 : req.path = "/eval"
        · rw [serve_eval_eq s req false h3] at hp ⊢
          by_cases hj : GetParam req "js" = ""
          · simp [HandleEval, hj] at hp
          · simp [HandleEval, hj]
        · by_cases h4 : req.path = "/input"
          · rw [serve_input_eq s req false h4] at hp ⊢
            by_cases h0 : ToLowerAscii (GetParam req "type") = ""
            · simp [HandleInput, h0] at hp
            · by_cases hc : ToLowerAscii (GetParam req "type") = "click"
              · by_cases hxy : ParseIntDefault (GetParam req "x") (-1) < 0 ∨
                    ParseIntDefault (GetParam req "y") (-1) < 0
                · simp [HandleInput, h0, hc, hxy] at hp
                · simp [HandleInput, h0, hc, hxy]
              · by_cases hsc : ToLowerAscii (GetParam req "type") = "scroll"
                · simp [HandleInput, h0, hc, hsc]
                · by_cases hb : BuildInputScript req = ""
                  · simp [HandleInput, h0, hc, hsc, hb] at hp
                  · simp [HandleInput, h0, hc, hsc, hb]
          · by_cases h5 : req.path = "/frame"
            · rw [serve_frame_eq s req false h5, handleFrame_posted] at hp
              simp at hp
            · by_cases h6 : req.path = "/quit"
              · exact absurd h6 hq
              · rw [serve_notfound_eq s req false h1 h2 h3 h4 h5 h6] at hp
                simp at hp
  · intro s req hq
    rw [serve_quit_eq s req false hq]
    exact ⟨rfl, rfl, rfl⟩

/-- C1 counterexample: a `/quit` request whose post is rejected is answered
200, not 500, and the last-error field stays empty — the rejection is
recorded nowhere. -/
theorem C1_counterexample :
    (ServeHttpRequest SampleState QuitReq false).posted = some Command.quit ∧
    ¬(ServeHttpRequest SampleState QuitReq false).response.status = 500 ∧
    (ServeHttpRequest SampleState QuitReq false).response.status = 200 ∧
    (ServeHttpRequest SampleState QuitReq false).state.last_error = "" := by
  decide

/-- C1 witness: a rejected `/open` post yields 500 with the error recorded,
and a rejected `/quit` post yields 200 with the state untouched. -/
theorem C1_witness :
    ((ServeHttpRequest SampleState OpenXReq false).response.status = 500 ∧
      (ServeHttpRequest SampleState OpenXReq false).state.last_error ∈
        (["open failed: CefPostTask error", "eval failed: CefPostTask error",
          "input click failed: CefPostTask error", "input scroll failed: CefPostTask error",
          "input failed: CefPostTask error"] : List String)) ∧
    ((ServeHttpRequest SampleState QuitReq false).posted = some Command.quit ∧
      (ServeHttpRequest SampleState QuitReq false).response.status = 200 ∧
      (ServeHttpRequest SampleState QuitReq false).state = SampleState) :=
  ⟨C1_theorem.1 SampleState OpenXReq (Command.openUrl "http://x") (by decide) (by decide),
    C1_theorem.2 SampleState QuitReq rfl⟩

/-! ### Claim C3 -/

/-- C3: for every reachable session state, `/frame` answers 503 exactly
when the capture flag is unset or the stored buffer is shorter than
`width * height * 4`; in particular the initial state (before any paint
callback) always answers 503. -/
theorem C3_theorem : ∀ (s : SharedState) (req : HttpRequest) (ok : Bool),
    req.path = "/frame" →
    (Reachable s →
      ((ServeHttpRequest s req ok).response.status = 503 ↔
        (s.frame_capture = false ∨
          s.frame_bgra.length < s.frame_width * s.frame_height * 4))) ∧
    (∀ (ba su : String) (vw vh : Int),
      (ServeHttpRequest (InitState ba su vw vh) req ok).response.status = 503) := by
  intro s req ok hpath
  constructor
  · intro hreach
    obtain ⟨h1, h2, h3, h4⟩ := reachable_stateInv s hreach
    rw [serve_frame_eq s req ok hpath]
    simp only [HandleFrame]
    split
    · rename_i hcond
      constructor
      · intro _
        rcases hcond with h | h | h
        · omega
        · omega
        · exact Or.inr h
      · intro _
        rfl
    · rename_i hcond
      push_neg at hcond
      obtain ⟨hw0, hh0, hlen⟩ := hcond
      constructor
      · intro h503
        simp at h503
      · intro hrhs
        rcases hrhs with hcap | hlt
        · have hb := h4 hcap
          have hpos : 0 < s.frame_width * s.frame_height * 4 :=
            Nat.mul_pos (Nat.mul_pos h1 h2) (by norm_num)
          rw [hb] at hlen
          simp only [List.length_nil, Nat.le_zero] at hlen
          rw [hlen] at hpos
          exact absurd hpos (lt_irrefl 0)
        · exact absurd hlt (not_lt.mpr hlen)
  · intro ba su vw vh
    rw [serve_frame_eq _ req ok hpath]
    obtain ⟨i1, i2, i3, i4⟩ := stateInv_init ba su vw vh
    have hpos : 0 < (InitState ba su vw vh).frame_width *
        (InitState ba su vw vh).frame_height * 4 :=
      Nat.mul_pos (Nat.mul_pos i1 i2) (by norm_num)
    simp only [HandleFrame]
    rw [if_pos (Or.inr (Or.inr (by simp [InitState])))]

/-- C3 witness: the equivalence instantiated at the (reachable) initial
sample state, where `/frame` indeed answers 503. -/
theorem C3_witness :
    (ServeHttpRequest SampleState FrameReq true).response.status = 503 ↔
    (SampleState.frame_capture = false ∨
      SampleState.frame_bgra.length <
        SampleState.frame_width * SampleState.frame_height * 4) :=
  (C3_theorem SampleState FrameReq true rfl).1
    (Reachable.init "127.0.0.1:37820" "https://www.google.com" 1024 640
      (by decide) (by decide))

/-! ### Claim C4 -/

lemma exists_four_cons (l : List Nat) (h : 4 ≤ l.length) :
    ∃ b g r a rest, l = b :: g :: r :: a :: rest := by
  match l, h with
  | b :: g :: r :: a :: rest, _ => exact ⟨b, g, r, a, rest, rfl⟩
  | [], h => simp at h
  | [_], h => simp at h
  | [_, _], h => simp at h
  | [_, _, _], h => simp at h

lemma frameRgbPixels_length (n : Nat) : ∀ l : List Nat, 4 * n ≤ l.length →
    (FrameRgbPixels n l).length = 3 * n := by
  induction n with
  | zero => intro l _; rfl
  | succ n ih =>
    intro l hl
    obtain ⟨b, g, r, a, rest, rfl⟩ := exists_four_cons l (by omega)
    have hrest : 4 * n ≤ rest.length := by
      simp only [List.length_cons] at hl
      omega
    simp only [FrameRgbPixels, List.length_cons, ih rest hrest]
    ring

lemma frameRgbPixels_get (n : Nat) : ∀ (l : List Nat) (i : Nat), 4 * n ≤ l.length → i < n →
    (FrameRgbPixels n l)[3 * i]? = (l[4 * i + 2]?).map (fun b => Char.ofNat b) ∧
    (FrameRgbPixels n l)[3 * i + 1]? = (l[4 * i + 1]?).map (fun b => Char.ofNat b) ∧
    (FrameRgbPixels n l)[3 * i + 2]? = (l[4 * i]?).map (fun b => Char.ofNat b) := by
  induction n with
  | zero => intro l i _ hi; omega
  | succ n ih =>
    intro l i hl hi
    obtain ⟨b, g, r, a, rest, rfl⟩ := exists_four_cons l (by omega)
    have hrest : 4 * n ≤ rest.length := by
      simp only [List.length_cons] at hl
      omega
    cases i with
    | zero => simp [FrameRgbPixels]
    | succ i =>
      obtain ⟨e1, e2, e3⟩ := ih rest i hrest (by omega)
      refine ⟨?_, ?_, ?_⟩
      · rw [show 3 * (i + 1) = 3 * i + 1 + 1 + 1 by ring,
          show 4 * (i + 1) + 2 = 4 * i + 2 + 1 + 1 + 1 + 1 by ring]
        simp only [FrameRgbPixels, List.getElem?_cons_succ]
        exact e1
      · rw [show 3 * (i + 1) + 1 = 3 * i + 1 + 1 + 1 + 1 by ring,
          show 4 * (i + 1) + 1 = 4 * i + 1 + 1 + 1 + 1 + 1 by ring]
        simp only [FrameRgbPixels, List.getElem?_cons_succ]
        exact e2
      · rw [show 3 * (i + 1) + 2 = 3 * i + 2 + 1 + 1 + 1 by ring,
          show 4 * (i + 1) = 4 * i + 1 + 1 + 1 + 1 by ring]
        simp only [FrameRgbPixels, List.getElem?_cons_succ]
        exact e3

/-- C4: with a stored frame of positive dimensions and a buffer of at least
`width * height * 4` bytes, `/frame` answers 200 with the PPM header
(`P6`, width, height, 255) followed by exactly `width * height` three-byte
pixels, where pixel `i` carries bytes `buffer[4i+2], buffer[4i+1],
buffer[4i]` — the BGRA quadruple reordered to R, G, B with alpha dropped. -/
theorem C4_theorem : ∀ (s : SharedState) (req : HttpRequest) (ok : Bool),
    req.path = "/frame" → 0 < s.frame_width → 0 < s.frame_height →
    s.frame_width * s.frame_height * 4 ≤ s.frame_bgra.length →
    (ServeHttpRequest s req ok).response.status = 200 ∧
    (ServeHttpRequest s req ok).response.body =
      "P6\n" ++ Nat.repr s.frame_width ++ " " ++ Nat.repr s.frame_height ++ "\n255\n" ++
        String.mk (FrameRgbPixels (s.frame_width * s.frame_height) s.frame_bgra) ∧
    (FrameRgbPixels (s.frame_width * s.frame_height) s.frame_bgra).length =
      3 * (s.frame_width * s.frame_height) ∧
    (∀ i, i < s.frame_width * s.frame_height →
      (FrameRgbPixels (s.frame_width * s.frame_height) s.frame_bgra)[3 * i]? =
        (s.frame_bgra[4 * i + 2]?).map (fun b => Char.ofNat b) ∧
      (FrameRgbPixels (s.frame_width * s.frame_height) s.frame_bgra)[3 * i + 1]? =
        (s.frame_bgra[4 * i + 1]?).map (fun b => Char.ofNat b) ∧
      (FrameRgbPixels (s.frame_width * s.frame_height) s.frame_bgra)[3 * i + 2]? =
        (s.frame_bgra[4 * i]?).map (fun b => Char.ofNat b)) := by
  intro s req ok hpath h1 h2 hlen
  have hlen' : 4 * (s.frame_width * s.frame_height) ≤ s.frame_bgra.length := by
    rw [show 4 * (s.frame_width * s.frame_height) =
      s.frame_width * s.frame_height * 4 by ring]
    exact hlen
  rw [serve_frame_eq s req ok hpath]
  simp only [HandleFrame]
  rw [if_neg (by push_neg; exact ⟨by omega, by omega, hlen⟩)]
  refine ⟨rfl, rfl, frameRgbPixels_length _ _ hlen', ?_⟩
  intro i hi
  exact frameRgbPixels_get _ _ i hlen' hi

/-- C4 witness: after a 2 x 1 paint with BGRA bytes
`10 20 30 40 50 60 70 80`, `/frame` answers 200 and the body is the header
`P6 2 1 255` followed by the 6 pixel bytes `30 20 10 70 60 50`. -/
theorem C4_witness :
    (ServeHttpRequest PaintedState FrameReq true).response.status = 200 ∧
    (ServeHttpRequest PaintedState FrameReq true).response.body =
      "P6\n2 1\n255\n" ++ String.mk
        [Char.ofNat 30, Char.ofNat 20, Char.ofNat 10,
         Char.ofNat 70, Char.ofNat 60, Char.ofNat 50] := by
  have h := C4_theorem PaintedState FrameReq true rfl (by decide) (by decide) (by decide)
  refine ⟨h.1, ?_⟩
  rw [h.2.1]
  decide

/-! ### Claim C5 -/

/-- C5 (amended): a parsed `/input` request increments the input counter
exactly when its (lower-cased) type parameter is non-empty — including
unknown types that are then rejected with 400; a request with an empty or
absent type is answered 400 with the state untouched, so its counter does
not move; and every unknown-or-empty type is answered 400. -/
theorem C5_theorem : ∀ (s : SharedState) (req : HttpRequest) (ok : Bool),
    req.path = "/input" →
    (¬ToLowerAscii (GetParam req "type") = "" →
      (ServeHttpRequest s req ok).state.input_requests = (s.input_requests + 1) % U64) ∧
    (ToLowerAscii (GetParam req "type") = "" →
      (ServeHttpRequest s req ok).response.status = 400 ∧
      (ServeHttpRequest s req ok).state = s) ∧
    (ToLowerAscii (GetParam req "type") ∉
        (["click", "scroll", "text", "key", "back", "forward", "reload"] : List String) →
      (ServeHttpRequest s req ok).response.status = 400) := by
  intro s req ok hpath
  rw [serve_input_eq s req ok hpath]
  refine ⟨?_, ?_, ?_⟩
  · intro ht
    by_cases hc : ToLowerAscii (GetParam req "type") = "click"
    · by_cases hxy : ParseIntDefault (GetParam req "x") (-1) < 0 ∨
          ParseIntDefault (GetParam req "y") (-1) < 0
      · simp [HandleInput, ht, hc, hxy]
      · cases ok <;> simp [HandleInput, ht, hc, hxy]
    · by_cases hsc : ToLowerAscii (GetParam req "type") = "scroll"
      · cases ok <;> simp [HandleInput, ht, hc, hsc]
      · by_cases hb : BuildInputScript req = ""
        · simp [HandleInput, ht, hc, hsc, hb]
        · cases ok <;> simp [HandleInput, ht, hc, hsc, hb]
  · intro ht
    simp [HandleInput, ht]
  · intro hnot
    simp only [List.mem_cons, List.not_mem_nil, or_false, not_or] at hnot
    obtain ⟨hc, hsc, htext, hkey, hback, hfwd, hrel⟩ := hnot
    by_cases ht : ToLowerAscii (GetParam req "type") = ""
    · simp [HandleInput, ht]
    · have hb : BuildInputScript req = "" := by
        simp [BuildInputScript, htext, hkey, hback, hfwd, hrel]
      simp [HandleInput, ht, hc, hsc, hb]

/-- C5 counterexample: a parsed `/input` request with no type parameter is
answered 400 and does not increment the input counter, refuting "every
parsed /input request increments the input counter". -/
theorem C5_counterexample :
    (ServeHttpRequest SampleState InputNoTypeReq true).response.status = 400 ∧
    (ServeHttpRequest SampleState InputNoTypeReq true).state.input_requests =
      SampleState.input_requests ∧
    ¬(ServeHttpRequest SampleState InputNoTypeReq true).state.input_requests =
      SampleState.input_requests + 1 := by
  decide

/-- C5 witness: a scroll request increments the counter, an empty-type
request is answered 400 with the state untouched, and an unknown type is
answered 400. -/
theorem C5_witness :
    (ServeHttpRequest SampleState InputScrollReq true).state.input_requests =
      (SampleState.input_requests + 1) % U64 ∧
    ((ServeHttpRequest SampleState InputNoTypeReq true).response.status = 400 ∧
      (ServeHttpRequest SampleState InputNoTypeReq true).state = SampleState) ∧
    (ServeHttpRequest SampleState InputBogusReq true).response.status = 400 :=
  ⟨(C5_theorem SampleState InputScrollReq true rfl).1 (by decide),
    (C5_theorem SampleState InputNoTypeReq true rfl).2.1 rfl,
    (C5_theorem SampleState InputBogusReq true rfl).2.2 (by decide)⟩

/-! ### Claim C6 -/

/-- C6: a parsed `/eval` request whose `js` parameter is empty or absent is
answered 400, leaves the whole state (in particular the eval counter)
unchanged, and hands no task to the queue. -/
theorem C6_theorem : ∀ (s : SharedState) (req : HttpRequest) (ok : Bool),
    req.path = "/eval" → GetParam req "js" = "" →
    (ServeHttpRequest s req ok).response.status = 400 ∧
    (ServeHttpRequest s req ok).state.eval_requests = s.eval_requests ∧
    (ServeHttpRequest s req ok).posted = none ∧
    (ServeHttpRequest s req ok).state = s := by
  intro s req ok hpath hjs
  rw [serve_eval_eq s req ok hpath]
  simp [HandleEval, hjs]

/-- C6 witness: the sample `/eval` request without `js` at the sample
state. -/
theorem C6_witness :
    (ServeHttpRequest SampleState EvalNoJsReq true).response.status = 400 ∧
    (ServeHttpRequest SampleState EvalNoJsReq true).state.eval_requests =
      SampleState.eval_requests ∧
    (ServeHttpRequest SampleState EvalNoJsReq true).posted = none ∧
    (ServeHttpRequest SampleState EvalNoJsReq true).state = SampleState :=
  C6_theorem SampleState EvalNoJsReq true rfl rfl

/-! ### Claim C7 -/

/-- C7: a parsed `/input` request of type scroll always hands a
`NativeInput(scroll, x, y, delta)` task to the queue in which a missing `x`
defaults to half the last recorded frame width, a missing `y` to half the
last recorded frame height, and a missing `delta` to 120. -/
theorem C7_theorem : ∀ (s : SharedState) (req : HttpRequest) (ok : Bool),
    req.path = "/input" → ToLowerAscii (GetParam req "type") = "scroll" →
    ∃ x y d : Int,
      (ServeHttpRequest s req ok).posted =
        some (Command.nativeInput NativeInputKind.mouseScroll x y d) ∧
      (GetParam req "x" = "" → x = (s.frame_width : Int) / 2) ∧
      (GetParam req "y" = "" → y = (s.frame_height : Int) / 2) ∧
      (GetParam req "delta" = "" → d = 120) := by
  intro s req ok hpath htype
  rw [serve_input_eq s req ok hpath]
  cases ok <;>
    simp only [HandleInput, htype] <;>
    norm_num <;>
    refine ⟨_, _, _, rfl, ?_, ?_, ?_⟩ <;>
    intro hmiss <;>
    rw [hmiss] <;>
    norm_num [ParseIntDefault]

/-- C7 witness: `/input?type=scroll` with no coordinates at the sample
state (frame 1024 x 640) posts a scroll at (512, 320) with delta 120. -/
theorem C7_witness :
    (ServeHttpRequest SampleState InputScrollReq true).posted =
      some (Command.nativeInput NativeInputKind.mouseScroll 512 320 120) := by
  obtain ⟨x, y, d, hp, hx, hy, hd⟩ := C7_theorem SampleState InputScrollReq true rfl rfl
  rw [hp, hx rfl, hy rfl, hd rfl]
  decide

/-! ### Claim C8 -/

/-- C8: whenever the capture flag is set the stored buffer holds at least
`width * height * 4` bytes: every state-mutating operation preserves this,
the initial state satisfies it, and hence every reachable state does. -/
theorem C8_theorem :
    (∀ (s : SharedState) (op : Op), CaptureInv s → CaptureInv (ApplyOp s op)) ∧
    (∀ (ba su : String) (vw vh : Int), CaptureInv (InitState ba su vw vh)) ∧
    (∀ s : SharedState, Reachable s → CaptureInv s) := by
  refine ⟨captureInv_step, ?_, ?_⟩
  · intro ba su vw vh
    exact stateInv_captureInv _ (stateInv_init ba su vw vh)
  · intro s h
    exact stateInv_captureInv s (reachable_stateInv s h)

/-- C8 witness: the invariant holds at the painted sample state, is
preserved there by a further paint callback, and holds at the reachable
initial sample state. -/
theorem C8_witness :
    CaptureInv (ApplyOp PaintedState (Op.onPaint 2 1 [1, 2, 3, 4, 5, 6, 7, 8])) ∧
    CaptureInv SampleState :=
  ⟨C8_theorem.1 PaintedState (Op.onPaint 2 1 [1, 2, 3, 4, 5, 6, 7, 8]) (fun _ => by decide),
    C8_theorem.2.2 SampleState
      (Reachable.init "127.0.0.1:37820" "https://www.google.com" 1024 640
        (by decide) (by decide))⟩

/-! ### Claim C9 -/

/-- Counter `a` evolved to `b` without decreasing, except for the one
forced `uint64_t` wraparound step from `2^64 - 1` back to 0. -/
def MonotoneOrWraps (a b : Nat) : Prop := a ≤ b ∨ (a = U64 - 1 ∧ b = 0)

lemma counterEvolves_mono (a b : Nat) (ha : a < U64) (h : CounterEvolves a b) :
    MonotoneOrWraps a b := by
  rcases h with rfl | rfl
  · exact Or.inl le_rfl
  · by_cases hE : a + 1 = U64
    · refine Or.inr ⟨by omega, ?_⟩
      rw [hE, Nat.mod_self]
    · left
      rw [Nat.mod_eq_of_lt (by omega)]
      omega

/-- C9 (amended): the running flag only ever transitions from true to false
and is never reset to true; and each operation leaves each of the three
request counters and the frame sequence number unchanged or incremented by
one modulo `2^64`, so (starting below `2^64`) they never decrease except
for a wraparound from `2^64 - 1` to 0, which needs `2^64` increments. -/
theorem C9_theorem : ∀ (s : SharedState) (op : Op),
    s.open_requests < U64 → s.eval_requests < U64 → s.input_requests < U64 →
    s.frame_seq < U64 →
    ((ApplyOp s op).running = true → s.running = true) ∧
    MonotoneOrWraps s.open_requests (ApplyOp s op).open_requests ∧
    MonotoneOrWraps s.eval_requests (ApplyOp s op).eval_requests ∧
    MonotoneOrWraps s.input_requests (ApplyOp s op).input_requests ∧
    MonotoneOrWraps s.frame_seq (ApplyOp s op).frame_seq := by
  intro s op h1 h2 h3 h4
  obtain ⟨c1, c2, c3, c4⟩ := applyOp_counters s op
  exact ⟨applyOp_running s op, counterEvolves_mono _ _ h1 c1,
    counterEvolves_mono _ _ h2 c2, counterEvolves_mono _ _ h3 c3,
    counterEvolves_mono _ _ h4 c4⟩

lemma serve_openx_open (s : SharedState) :
    (ApplyOp s (Op.serve OpenXReq true)).open_requests = (s.open_requests + 1) % U64 := rfl

lemma serve_openx_replicate (n : Nat) : ∀ s : SharedState, s.open_requests < U64 →
    (ApplyOps s (List.replicate n (Op.serve OpenXReq true))).open_requests =
      (s.open_requests + n) % U64 := by
  induction n with
  | zero =>
    intro s hs
    simp [ApplyOps, Nat.mod_eq_of_lt hs]
  | succ n ih =>
    intro s hs
    rw [List.replicate_succ]
    show (ApplyOps (ApplyOp s (Op.serve OpenXReq true))
      (List.replicate n (Op.serve OpenXReq true))).open_requests = _
    rw [ih _ (by rw [serve_openx_open]; exact Nat.mod_lt _ (by norm_num [U64])),
      serve_openx_open, Nat.mod_add_mod]
    congr 1
    ring

/-- C9 counterexample: in the sequence of `2^64` accepted `/open` requests
from the initial sample state, the open counter wraps on the last step from
`2^64 - 1` down to 0 — a decrease, so "the counters never decrease across
every sequence of operations" fails on this (astronomically long but
well-defined) sequence. -/
theorem C9_counterexample :
    (ApplyOp (ApplyOps SampleState (List.replicate (U64 - 1) (Op.serve OpenXReq true)))
        (Op.serve OpenXReq true)).open_requests <
      (ApplyOps SampleState
        (List.replicate (U64 - 1) (Op.serve OpenXReq true))).open_requests := by
  have h0 : SampleState.open_requests = 0 := rfl
  have h1 := serve_openx_replicate (U64 - 1) SampleState (by rw [h0]; norm_num [U64])
  rw [h0] at h1
  have h2 : (ApplyOps SampleState
      (List.replicate (U64 - 1) (Op.serve OpenXReq true))).open_requests = U64 - 1 := by
    rw [h1]
    norm_num [U64]
  rw [serve_openx_open, h2]
  norm_num [U64]

/-- C9 witness: the amended statement instantiated at the sample state and
the quit-task operation. -/
theorem C9_witness :
    ((ApplyOp SampleState Op.quitExec).running = true → SampleState.running = true) ∧
    MonotoneOrWraps SampleState.open_requests (ApplyOp SampleState Op.quitExec).open_requests ∧
    MonotoneOrWraps SampleState.eval_requests (ApplyOp SampleState Op.quitExec).eval_requests ∧
    MonotoneOrWraps SampleState.input_requests (ApplyOp SampleState Op.quitExec).input_requests ∧
    MonotoneOrWraps SampleState.frame_seq (ApplyOp SampleState Op.quitExec).frame_seq :=
  C9_theorem SampleState Op.quitExec (by norm_num [SampleState, InitState, U64])
    (by norm_num [SampleState, InitState, U64]) (by norm_num [SampleState, InitState, U64])
    (by norm_num [SampleState, InitState, U64])

/-! ### Claim C10 -/

/-- C10: parameter lookup cannot tell a key mapped to the empty value from
an absent key — both give the empty string — and `/open` (resp. `/eval`)
answers any request whose `url` (resp. `js`) parameter is empty with the
same fixed 400 missing-parameter response, posting nothing and leaving the
state untouched. -/
theorem C10_theorem :
    (∀ (req : HttpRequest) (key : String),
      (List.lookup key req.query = some "" ∨ List.lookup key req.query = none) →
      (List.lookup key req.form = some "" ∨ List.lookup key req.form = none) →
      GetParam req key = "") ∧
    (∀ (s : SharedState) (req : HttpRequest) (ok : Bool),
      req.path = "/open" → GetParam req "url" = "" →
      (ServeHttpRequest s req ok).response =
        ⟨400, "\x7b\"ok\":false,\"error\":\"missing url\"\x7d"⟩ ∧
      (ServeHttpRequest s req ok).posted = none ∧
      (ServeHttpRequest s req ok).state = s) ∧
    (∀ (s : SharedState) (req : HttpRequest) (ok : Bool),
      req.path = "/eval" → GetParam req "js" = "" →
      (ServeHttpRequest s req ok).response =
        ⟨400, "\x7b\"ok\":false,\"error\":\"missing js\"\x7d"⟩ ∧
      (ServeHttpRequest s req ok).posted = none ∧
      (ServeHttpRequest s req ok).state = s) := by
  refine ⟨?_, ?_, ?_⟩
  · intro req key hq hf
    unfold GetParam
    rcases hq with h | h <;> rw [h]
    rcases hf with h2 | h2 <;> rw [h2]
  · intro s req ok hpath hurl
    rw [serve_open_eq s req ok hpath]
    simp [HandleOpen, hurl]
  · intro s req ok hpath hjs
    rw [serve_eval_eq s req ok hpath]
    simp [HandleEval, hjs]

/-- C10 witness: `/open?url=` (present but empty) and `/open` (absent) both
read back an empty `url` parameter and receive the identical 400
missing-url response. -/
theorem C10_witness :
    GetParam OpenEmptyUrlReq "url" = "" ∧
    GetParam OpenNoUrlReq "url" = "" ∧
    (ServeHttpRequest SampleState OpenEmptyUrlReq true).response =
      ⟨400, "\x7b\"ok\":false,\"error\":\"missing url\"\x7d"⟩ ∧
    (ServeHttpRequest SampleState OpenNoUrlReq true).response =
      ⟨400, "\x7b\"ok\":false,\"error\":\"missing url\"\x7d"⟩ :=
  ⟨C10_theorem.1 OpenEmptyUrlReq "url" (by decide) (by decide),
    C10_theorem.1 OpenNoUrlReq "url" (by decide) (by decide),
    (C10_theorem.2.1 SampleState OpenEmptyUrlReq true rfl (by decide)).1,
    (C10_theorem.2.1 SampleState OpenNoUrlReq true rfl (by decide)).1⟩

end CefHostBridge
